import Mathlib

/-!
Verification development for the fashion-analysis workflow orchestration core
(`src/state.py`, `src/graph.py`, `src/nodes/*.py`, `src/config.py`).

Python dictionaries keyed by strings are embedded as functions
`String → Option α` (`StrMap`); a partial state update returned by a node is a
structure of `Option`-valued fields, where `none` models "this key is absent
from the returned dict".  Machine floats used for retry delays are idealized
as rationals (the delays involved — 22, 2.5, powers of two — are exactly
representable, so no rounding behaviour is lost).
-/

/-- Python string-keyed dict, embedded as a partial function. -/
abbrev StrMap (α : Type) := String → Option α

def StrMap.empty {α : Type} : StrMap α := fun _ => none

/-- `{**m, k: v}` for a single key. -/
def StrMap.insert {α : Type} (m : StrMap α) (k : String) (v : α) : StrMap α :=
  fun q => if q = k then some v else m q

/-- `{**l, **r}`: keys of `r` win. -/
def StrMap.union {α : Type} (l r : StrMap α) : StrMap α :=
  fun k => match r k with
  | some v => some v
  | none => l k

/-- `m.get k default`. -/
def StrMap.getD {α : Type} (m : StrMap α) (k : String) (d : α) : α :=
  (m k).getD d

/-- `merge_agent_memories` from `src/state.py` (lines 14-34): the reducer for
the `agent_memories` channel.  `result = left.copy()`; for each
`(agent_name, agent_data)` in `right`, if `agent_name` is already present the
two nested dicts are merged (`{**result[agent_name], **agent_data}`, right
wins), otherwise `agent_data` is inserted. -/
def merge_agent_memories {α : Type} (left right : StrMap (StrMap α)) :
    StrMap (StrMap α) :=
  fun k => match right k, left k with
  | some rd, some ld => some (StrMap.union ld rd)
  | some rd, none => some rd
  | none, some ld => some ld
  | none, none => none

/-- `merge_dicts` from `src/state.py` (lines 37-49): the reducer for the
`execution_status` and `errors` channels, `{**left, **right}`. -/
def merge_dicts {α : Type} (left right : StrMap α) : StrMap α :=
  StrMap.union left right

-- =========================
-- Review decisions (src/state.py OutfitReviewDecision, and its dict dumps)
-- =========================

/-- A (possibly partial) `outfit_review_decision` dict as stored in the graph
state: each field is `none` when the key is absent (the state is initialised
with `{}` and the outfit designer resets it to `{}` after a revision). -/
structure ReviewDecisionDict where
  decision_type : Option String := none
  rejection_feedback : Option String := none
  edit_instructions : Option String := none
  selected_outfit_ids : Option (List String) := none
deriving DecidableEq

/-- The empty dict `{}`. -/
def ReviewDecisionDict.empty : ReviewDecisionDict := {}

/-- A validated `OutfitReviewDecision` (src/state.py lines 64-69): Pydantic
model with `decision_type` required and the remaining fields defaulted. -/
structure OutfitReviewDecision where
  decision_type : String
  rejection_feedback : String := ""
  edit_instructions : String := ""
  selected_outfit_ids : List String := []
deriving DecidableEq

/-- `decision.model_dump()`: every field becomes a present key. -/
def OutfitReviewDecision.model_dump (d : OutfitReviewDecision) :
    ReviewDecisionDict :=
  { decision_type := some d.decision_type
    rejection_feedback := some d.rejection_feedback
    edit_instructions := some d.edit_instructions
    selected_outfit_ids := some d.selected_outfit_ids }

/-- The raw resume value handed to the outfit review gate (an arbitrary
mapping; fields it does not carry are `none`). -/
structure ReviewResponse where
  decision_type : Option String := none
  rejection_feedback : Option String := none
  edit_instructions : Option String := none
  selected_outfit_ids : Option (List String) := none
deriving DecidableEq

/-- `OutfitReviewDecision(**review_response)`: Pydantic construction fails
when the required `decision_type` key is missing (the error string abbreviates
Pydantic's rendering); the optional fields fall back to their defaults. -/
def parseReviewDecision (r : ReviewResponse) :
    Except String OutfitReviewDecision :=
  match r.decision_type with
  | none => .error "1 validation error for OutfitReviewDecision: decision_type Field required"
  | some dt =>
      .ok { decision_type := dt
            rejection_feedback := r.rejection_feedback.getD ""
            edit_instructions := r.edit_instructions.getD ""
            selected_outfit_ids := r.selected_outfit_ids.getD [] }

-- =========================
-- Routing and static graph topology (src/graph.py)
-- =========================

/-- LangGraph's `END` sentinel label. -/
def END_LABEL : String := "__end__"

/-- `route_after_review` from `src/graph.py` (lines 52-82).  The source reads
`state.get("outfit_review_decision", {}).get("decision_type", "")` (the
state's `execution_status` is read only for logging) and dispatches on it. -/
def route_after_review (decision : ReviewDecisionDict) : String :=
  let decision_type := decision.decision_type.getD ""
  if decision_type == "approve" then "video_generator"
  else if decision_type == "reject" then END_LABEL
  else if decision_type == "edit" then "outfit_designer"
  else "outfit_reviewer"

/-- The transition table passed to `add_conditional_edges` for
`outfit_reviewer` in `create_fashion_analysis_graph` (src/graph.py lines
141-150), as label ↦ target pairs. -/
def review_transition_table : List (String × String) :=
  [("video_generator", "video_generator"),
   ("outfit_designer", "outfit_designer"),
   ("outfit_reviewer", "outfit_reviewer"),
   (END_LABEL, END_LABEL)]

/-- The static (unconditional) edges added by `create_fashion_analysis_graph`
(src/graph.py lines 118-153). -/
def graph_edges : List (String × String) :=
  [("__start__", "user_input_collector"),
   ("user_input_collector", "data_collector"),
   ("user_input_collector", "video_analyzer"),
   ("data_collector", "content_analyzer"),
   ("content_analyzer", "coordination"),
   ("video_analyzer", "coordination"),
   ("coordination", "final_processor"),
   ("final_processor", "outfit_designer"),
   ("outfit_designer", "outfit_reviewer"),
   ("video_generator", END_LABEL)]

/-- Static successors of a node in the compiled graph. -/
def successors (n : String) : List String :=
  (graph_edges.filter (fun e => e.1 == n)).map (fun e => e.2)

-- =========================
-- Retry/backoff executors (src/config.py, src/nodes/*.py)
-- =========================

/-- `MAX_RETRIES` from `src/config.py` line 420. -/
def MAX_RETRIES : Nat := 3

/-- `BASE_DELAY` from `src/config.py` line 421 (seconds). -/
def BASE_DELAY : ℚ := 22

/-- Outcome of one attempt of the wrapped operation: the agent invocation
returns a value, raises `asyncio.TimeoutError`, or raises some other
exception carrying the message `str(e)`. -/
inductive AttemptOutcome (α : Type) where
  | success (v : α)
  | timeout
  | failure (msg : String)
deriving DecidableEq

def strContainsAux (pat : List Char) : List Char → Bool
  | [] => pat.isEmpty
  | c :: cs => pat.isPrefixOf (c :: cs) || strContainsAux pat cs

/-- Substring test, `pat in s` in Python. -/
def strContains (s pat : String) : Bool :=
  strContainsAux pat.toList s.toList

/-- `s.lower()` (the scanned messages are ASCII). -/
def lowerStr (s : String) : String :=
  String.mk (s.toList.map Char.toLower)

/-- The rate-limit classifier used identically in data_collector,
content_analyzer and video_analyzer:
`"429" in error_str or "quota" in error_str.lower() or "rate" in error_str.lower()`. -/
def isRateLimit (s : String) : Bool :=
  strContains s "429" || strContains (lowerStr s) "quota" || strContains (lowerStr s) "rate"

def isDigitOrDot (c : Char) : Bool := c.isDigit || c == '.'

/-- Try to match the regex `retry in ([\d.]+)s` at the head of `cs`,
returning the captured group.  The character class excludes `s`, so the
greedy `+` cannot backtrack into a successful shorter match: the maximal
digit-or-dot run must be non-empty and immediately followed by `s`. -/
def matchHintAt (cs : List Char) : Option (List Char) :=
  let pat := "retry in ".toList
  if pat.isPrefixOf cs then
    let rest := cs.drop pat.length
    let run := rest.takeWhile isDigitOrDot
    if run.isEmpty then none
    else if (rest.drop run.length).head? == some 's' then some run
    else none
  else none

/-- Leftmost match of `retry in ([\d.]+)s` over a character list, as
`re.search` finds it. -/
def findHint : List Char → Option (List Char)
  | [] => none
  | c :: cs =>
    match matchHintAt (c :: cs) with
    | some r => some r
    | none => findHint cs

/-- `re.search(r"retry in ([\d.]+)s", error_str)` and `.group(1)`. -/
def findRetryHintGroup (s : String) : Option String :=
  (findHint s.toList).map String.mk

def digitsVal (ds : List Char) : Nat :=
  ds.foldl (fun n c => n * 10 + (c.toNat - 48)) 0

/-- Split a character list at every dot. -/
def splitDots : List Char → List (List Char)
  | [] => [[]]
  | c :: cs =>
    if c == '.' then [] :: splitDots cs
    else
      match splitDots cs with
      | [] => [[c]]
      | p :: ps => (c :: p) :: ps

/-- `float(group)` on a string drawn from the class `[0-9.]+`: a plain digit
run, or `int.frac` with at most one dot and at least one digit; anything else
(`"."`, two dots) raises `ValueError`, modelled as `none`. -/
def pyFloat (s : String) : Option ℚ :=
  match splitDots s.toList with
  | [ds] =>
      if ds.isEmpty || !ds.all Char.isDigit then none
      else some (digitsVal ds)
  | [a, b] =>
      if (a.isEmpty && b.isEmpty) || !a.all Char.isDigit || !b.all Char.isDigit then none
      else some ((digitsVal a : ℚ) + (digitsVal b : ℚ) / (10 : ℚ) ^ b.length)
  | _ => none

/-- Result of the retry loop shared by `run_data_collector_agent`
(src/nodes/data_collector.py lines 99-180), `run_content_analyzer_agent` and
`run_video_analyzer_agent`: either the operation's value, or the terminal
error the loop raises, each together with the number of attempts made and
the sleeps performed (in order). -/
inductive RetryResult (α : Type) where
  | ok (v : α) (attempts : Nat) (sleeps : List ℚ)
  | timeoutExhausted (attempts : Nat) (sleeps : List ℚ)
  | rateLimitExhausted (msg : String) (attempts : Nat) (sleeps : List ℚ)
  | fatal (msg : String) (attempts : Nat) (sleeps : List ℚ)
  | hintParseError (group : String) (attempts : Nat) (sleeps : List ℚ)
deriving DecidableEq

def RetryResult.attempts {α : Type} : RetryResult α → Nat
  | .ok _ n _ => n
  | .timeoutExhausted n _ => n
  | .rateLimitExhausted _ n _ => n
  | .fatal _ n _ => n
  | .hintParseError _ n _ => n

def RetryResult.sleeps {α : Type} : RetryResult α → List ℚ
  | .ok _ _ s => s
  | .timeoutExhausted _ s => s
  | .rateLimitExhausted _ _ s => s
  | .fatal _ _ s => s
  | .hintParseError _ _ s => s

/-- The body of `for attempt in range(MAX_RETRIES + 1)` in
`run_data_collector_agent` (and verbatim in the content/video analyzers).
`remaining` is the number of further iterations the `range` still allows, so
`remaining > 0` is exactly the source's `attempt < MAX_RETRIES` guard.
On timeout with retries left: sleep `BASE_DELAY` and continue; exhausted:
raise `RuntimeError(... due to timeouts)`.  On a rate-limited exception with
retries left: sleep the server hint parsed from `retry in Xs` when present
(`float` failure on the captured group propagates, `hintParseError`),
otherwise `BASE_DELAY * 2 ** attempt`; exhausted: re-raise.  Any other
exception is re-raised immediately. -/
def retryGo {α : Type} (op : Nat → AttemptOutcome α) :
    Nat → Nat → List ℚ → RetryResult α
  | 0, attempt, sleeps =>
    match op attempt with
    | .success v => .ok v (attempt + 1) sleeps
    | .timeout => .timeoutExhausted (attempt + 1) sleeps
    | .failure m =>
      if isRateLimit m then .rateLimitExhausted m (attempt + 1) sleeps
      else .fatal m (attempt + 1) sleeps
  | r + 1, attempt, sleeps =>
    match op attempt with
    | .success v => .ok v (attempt + 1) sleeps
    | .timeout => retryGo op r (attempt + 1) (sleeps ++ [BASE_DELAY])
    | .failure m =>
      if isRateLimit m then
        match findRetryHintGroup m with
        | some g =>
          match pyFloat g with
          | some d => retryGo op r (attempt + 1) (sleeps ++ [d])
          | none => .hintParseError g (attempt + 1) sleeps
        | none => retryGo op r (attempt + 1) (sleeps ++ [BASE_DELAY * 2 ^ attempt])
      else .fatal m (attempt + 1) sleeps

/-- The full `range(MAX_RETRIES + 1)` loop, started at attempt 0 with
`MAX_RETRIES` further iterations available. -/
def runRetryLoop {α : Type} (op : Nat → AttemptOutcome α) : RetryResult α :=
  retryGo op MAX_RETRIES 0 []

/-- The `for attempt in range(MAX_RETRIES)` loop shared (same shape) by
`final_processor_node` (src/nodes/final_processor.py lines 115-196) and
`outfit_designer_node` (src/nodes/outfit_designer.py lines 153-206): every
exception is retried with `BASE_DELAY * 2 ** attempt` while
`attempt < MAX_RETRIES - 1`; the last attempt's exception is re-raised.
Returns (outcome, attempts made, sleeps performed). -/
def expRetryAllErrors {α : Type} (op : Nat → Except String α) :
    Nat → Nat → List ℚ → Except String α × Nat × List ℚ
  | 0, attempt, sleeps =>
    match op attempt with
    | .ok v => (.ok v, attempt + 1, sleeps)
    | .error e => (.error e, attempt + 1, sleeps)
  | r + 1, attempt, sleeps =>
    match op attempt with
    | .ok v => (.ok v, attempt + 1, sleeps)
    | .error _ =>
        expRetryAllErrors op r (attempt + 1) (sleeps ++ [BASE_DELAY * 2 ^ attempt])

/-- The full `range(MAX_RETRIES)` loop, started at attempt 0 with
`MAX_RETRIES - 1` further iterations available. -/
def runExpRetryAllErrors {α : Type} (op : Nat → Except String α) :
    Except String α × Nat × List ℚ :=
  expRetryAllErrors op (MAX_RETRIES - 1) 0 []

/-- The error message produced when the retry loop itself raises, as the
enclosing node's `except Exception as e: ... str(e)` sees it.  `timeoutMsg` is
the node-specific `RuntimeError` text for timeout exhaustion. -/
def retryErrorMessage {α : Type} (timeoutMsg : String) :
    RetryResult α → Option String
  | .ok .. => none
  | .timeoutExhausted .. => some timeoutMsg
  | .rateLimitExhausted m .. => some m
  | .fatal m .. => some m
  | .hintParseError g .. => some ("could not convert string to float: " ++ g)

-- =========================
-- Outfit reviewer gate (src/nodes/outfit_reviewer.py)
-- =========================

/-- The slice of the graph state read by `outfit_reviewer_node`; `α` is the
(domain-specific) payload type of one `outfit_designs` entry. -/
structure ReviewerState (α : Type) where
  execution_status : StrMap String
  outfit_review_decision : ReviewDecisionDict
  outfit_designs : List α
  errors : StrMap String

/-- A partial update returned by `outfit_reviewer_node`; `none` fields model
keys absent from the returned dict. -/
structure ReviewerResult where
  awaiting_outfit_review : Option Bool := none
  outfit_review_decision : Option ReviewDecisionDict := none
  errors : Option (StrMap String) := none
  execution_status : Option (StrMap String) := none

/-- The `except Exception` handler at the end of `outfit_reviewer_node`
(lines 140-148): a validation error is recorded under the `outfit_reviewer`
key of `errors`; no `execution_status` or `outfit_review_decision` key is
returned. -/
def reviewerInvalidReturn {α : Type} (st : ReviewerState α) (msg : String) :
    ReviewerResult :=
  { awaiting_outfit_review := some false
    errors := some (StrMap.insert st.errors "outfit_reviewer"
      ("Invalid review decision: " ++ msg)) }

/-- Source text wraps reject in single quotes; quotes elided here. -/
def rejectFeedbackMandatoryMsg : String :=
  "rejection_feedback is mandatory when decision is reject"

/-- Source text wraps edit in single quotes; quotes elided here. -/
def editInstructionsMandatoryMsg : String :=
  "edit_instructions is mandatory when decision is edit"

/-- `outfit_reviewer_node` from `src/nodes/outfit_reviewer.py` (lines 10-148),
as a function of the state snapshot and the resume value supplied to the
`interrupt` call.  Guards: already-completed status or an existing
approve/reject decision pass through (`{}`); no designs short-circuits with an
error.  Otherwise the resume value is validated: `reject` demands non-empty
`rejection_feedback`, `edit` demands non-empty `edit_instructions`, an
unrecognized tag raises — every such `ValueError` (and a failed Pydantic
construction) lands in the handler `reviewerInvalidReturn`. -/
def outfit_reviewer_node {α : Type} (st : ReviewerState α)
    (resume : ReviewResponse) : ReviewerResult :=
  if st.execution_status "outfit_reviewer" == some "completed" then {}
  else if st.outfit_review_decision.decision_type == some "approve"
       || st.outfit_review_decision.decision_type == some "reject" then {}
  else if st.outfit_designs.isEmpty then
    { awaiting_outfit_review := some false
      errors := some (StrMap.insert st.errors "outfit_reviewer" "No outfits to review") }
  else
    match parseReviewDecision resume with
    | .error e => reviewerInvalidReturn st e
    | .ok d =>
      if d.decision_type == "reject" && d.rejection_feedback == "" then
        reviewerInvalidReturn st rejectFeedbackMandatoryMsg
      else if d.decision_type == "edit" && d.edit_instructions == "" then
        reviewerInvalidReturn st editInstructionsMandatoryMsg
      else if d.decision_type == "approve" then
        { awaiting_outfit_review := some false
          outfit_review_decision := some d.model_dump
          execution_status := some (StrMap.insert st.execution_status
            "outfit_reviewer" "completed") }
      else if d.decision_type == "reject" then
        { awaiting_outfit_review := some false
          outfit_review_decision := some d.model_dump
          errors := some (StrMap.insert st.errors "outfit_reviewer"
            ("Designs rejected: " ++ d.rejection_feedback))
          execution_status := some (StrMap.insert st.execution_status
            "outfit_reviewer" "rejected") }
      else if d.decision_type == "edit" then
        { awaiting_outfit_review := some true
          outfit_review_decision := some d.model_dump
          execution_status := some (StrMap.insert st.execution_status
            "outfit_reviewer" "edit_requested") }
      else
        reviewerInvalidReturn st ("Invalid decision_type: " ++ d.decision_type)

/-- Merging a `ReviewerResult` into the state: `execution_status` and
`errors` use the `merge_dicts` reducer; `outfit_review_decision` is a plain
(overwrite) channel, unchanged when the key is absent. -/
def applyReviewerResult {α : Type} (st : ReviewerState α) (r : ReviewerResult) :
    ReviewerState α :=
  { st with
    execution_status :=
      match r.execution_status with
      | some u => merge_dicts st.execution_status u
      | none => st.execution_status
    errors :=
      match r.errors with
      | some u => merge_dicts st.errors u
      | none => st.errors
    outfit_review_decision := r.outfit_review_decision.getD st.outfit_review_decision }

-- =========================
-- User input gate (src/nodes/user_input_collector.py, src/state.py UserInput)
-- =========================

/-- `UserInput` from `src/state.py` (lines 56-61): every field defaulted. -/
structure UserInput where
  custom_urls : List String := []
  custom_images : List String := []
  custom_videos : List String := []
  query : String := ""
deriving DecidableEq

/-- `UserInput()`: the all-defaults instance. -/
def defaultUserInput : UserInput := {}

/-- A partial update returned by `user_input_collector_node`. -/
structure CollectorResult where
  user_input : Option UserInput := none
  query : Option String := none
  errors : Option (StrMap String) := none
  execution_status : Option (StrMap String) := none

/-- `user_input_collector_node` from `src/nodes/user_input_collector.py`
(lines 10-58), as a function of the state's `query` entry (`none` when the
key is absent) and of the outcome of `UserInput(**user_response)` on the
resume value.  On a validation error the node falls back to
`UserInput().model_dump()` and the state/default query; it records neither an
error nor an execution status.  On success, `user_input.query or
state.get("query", "Fashion trend analysis")` (empty string is falsy). -/
def user_input_collector_node (stateQuery : Option String)
    (parsed : Except String UserInput) : CollectorResult :=
  match parsed with
  | .ok ui =>
    { user_input := some ui
      query := some (if ui.query == "" then stateQuery.getD "Fashion trend analysis"
                     else ui.query) }
  | .error _ =>
    { user_input := some defaultUserInput
      query := some (stateQuery.getD "Fashion trend analysis") }

-- =========================
-- Outfit designer (src/nodes/outfit_designer.py)
-- =========================

/-- The slice of the graph state read by `outfit_designer_node`.
`τ` is the trend-analysis payload, `δ` the payload of one `outfit_designs`
entry (the dump of a `ListofOutfits`).  `trend_analysis` is
`state.get("final_processor", {}).get("trend_analysis", {})` with `none`
standing for missing-or-falsy.  (The node's `agent_memories` contribution
carries only telemetry counters and is not modelled.) -/
structure DesignerState (τ δ : Type) where
  outfit_review_decision : ReviewDecisionDict
  outfit_designs : List δ
  trend_analysis : Option τ
  execution_status : StrMap String
  errors : StrMap String

/-- The `designer_input` dict assembled by `outfit_designer_node`
(lines 133-144): revision keys are present only for an edit request. -/
structure DesignerInput (τ δ : Type) where
  trend_analysis : τ
  revision_mode : Bool := false
  edit_instructions : Option String := none
  selected_outfits : Option (List String) := none
  existing_outfits : Option (List δ) := none

/-- `is_edit_request` (line 94): `outfit_review_decision.get("decision_type")
== "edit"`. -/
def isEditRequest (st : DesignerState τ δ) : Bool :=
  st.outfit_review_decision.decision_type == some "edit"

/-- Builds `designer_input` for a run with trend analysis `ta`
(src/nodes/outfit_designer.py lines 133-144). -/
def buildDesignerInput {τ δ : Type} (st : DesignerState τ δ) (ta : τ) :
    DesignerInput τ δ :=
  if isEditRequest st then
    { trend_analysis := ta
      revision_mode := true
      edit_instructions := some (st.outfit_review_decision.edit_instructions.getD "")
      selected_outfits := some (st.outfit_review_decision.selected_outfit_ids.getD [])
      existing_outfits := some st.outfit_designs }
  else
    { trend_analysis := ta }

/-- A partial update returned by `outfit_designer_node`. -/
structure DesignerResult (δ : Type) where
  outfit_designs : Option (List δ) := none
  outfit_review_decision : Option ReviewDecisionDict := none
  errors : Option (StrMap String) := none
  execution_status : Option (StrMap String) := none

/-- `outfit_designer_node` from `src/nodes/outfit_designer.py` (lines 36-272).
`cache` is the parsed `data/outfit_designer_output.json` when that file
exists and parses (`load_outfit_designer_output`); `op input attempt` is the
outcome of one agent invocation on `designer_input`.  The cached path is
taken only when this is NOT an edit request.  Missing/empty trend analysis →
status `skipped`.  The retry loop is `expRetryAllErrors`.  On success the
update completes the designer, resets `outfit_reviewer` to `pending`, and —
for an edit request — clears `outfit_review_decision` to `{}`. -/
def outfit_designer_node {τ δ : Type} (st : DesignerState τ δ)
    (cache : Option δ) (op : DesignerInput τ δ → Nat → Except String δ) :
    DesignerResult δ :=
  if !isEditRequest st && cache.isSome then
    { outfit_designs := some cache.toList
      execution_status := some (StrMap.insert st.execution_status
        "outfit_designer" "completed") }
  else
    match st.trend_analysis with
    | none =>
      { outfit_designs := some []
        errors := some (StrMap.insert st.errors "outfit_designer"
          "No trend analysis available")
        execution_status := some (StrMap.insert st.execution_status
          "outfit_designer" "skipped") }
    | some ta =>
      match (runExpRetryAllErrors (op (buildDesignerInput st ta))).1 with
      | .error e =>
        { outfit_designs := some []
          errors := some (StrMap.insert st.errors "outfit_designer" e)
          execution_status := some (StrMap.insert st.execution_status
            "outfit_designer" "failed") }
      | .ok out =>
        { outfit_designs := some [out]
          execution_status := some (StrMap.insert
            (StrMap.insert st.execution_status "outfit_designer" "completed")
            "outfit_reviewer" "pending")
          outfit_review_decision :=
            if isEditRequest st then some ReviewDecisionDict.empty else none }

-- =========================
-- Data collector → content analyzer chain (src/nodes/data_collector.py,
-- src/nodes/content_analyzer.py, static edges in src/graph.py)
-- =========================

/-- `RuntimeError` text raised by `run_data_collector_agent` on timeout
exhaustion (src/nodes/data_collector.py line 161). -/
def dcTimeoutMsg : String := "Data collector exceeded max retries due to timeouts"

/-- `RuntimeError` text raised by `run_content_analyzer_agent` on timeout
exhaustion (src/nodes/content_analyzer.py line 122). -/
def caTimeoutMsg : String := "Content analyzer exceeded max retries due to timeouts"

/-- `RuntimeError` text raised by `run_video_analyzer_agent` on timeout
exhaustion (src/nodes/video_analyzer.py line 183). -/
def vaTimeoutMsg : String := "Video analyzer exceeded max retries due to timeouts"

/-- The slice of the merged graph state threaded through the data-collector
chain.  `υ` is the payload type of one collected URL item, `γ` the payload of
one content-analysis dump.  `url_list` is `data_collection.url_list` as the
content analyzer reads it. -/
structure PipeState (υ γ : Type) where
  url_list : List υ
  content_analysis : List γ
  execution_status : StrMap String
  errors : StrMap String

/-- `data_collector_node` from `src/nodes/data_collector.py` (lines 24-236),
with its update already merged into the state.  `op` gives each attempt's
outcome of the `@task`-isolated agent invocation.  A successful run stores
the curated URL list and marks the stage `completed`; when the retry loop
raises, the outer `except` records the stage as `failed` with the error
string under the `data_collector` key and returns an empty
`data_collection`. -/
def data_collector_node {υ γ : Type} (st : PipeState υ γ)
    (op : Nat → AttemptOutcome (List υ)) : PipeState υ γ :=
  match runRetryLoop op with
  | .ok urls _ _ =>
    { st with
      url_list := urls
      execution_status := StrMap.insert st.execution_status "data_collector" "completed" }
  | r =>
    { st with
      url_list := []
      errors := StrMap.insert st.errors "data_collector"
        ((retryErrorMessage dcTimeoutMsg r).getD "")
      execution_status := StrMap.insert st.execution_status "data_collector" "failed" }

/-- `content_analyzer_node` from `src/nodes/content_analyzer.py`
(lines 21-183), with its update already merged into the state.  `cache` is
the parsed `data/content_analyzer_output.json` when present.  Without a
cache, an empty `url_list` raises `ValueError("No URLs from data collector")`
which the node's own `except` turns into status `failed`; otherwise the agent
runs under the shared retry loop. -/
def content_analyzer_node {υ γ : Type} (st : PipeState υ γ) (cache : Option γ)
    (op : Nat → AttemptOutcome γ) : PipeState υ γ :=
  match cache with
  | some c =>
    { st with
      content_analysis := st.content_analysis ++ [c]
      execution_status := StrMap.insert st.execution_status "content_analyzer" "completed" }
  | none =>
    if st.url_list.isEmpty then
      { st with
        content_analysis := st.content_analysis ++ []
        errors := StrMap.insert st.errors "content_analyzer" "No URLs from data collector"
        execution_status := StrMap.insert st.execution_status "content_analyzer" "failed" }
    else
      match runRetryLoop op with
      | .ok out _ _ =>
        { st with
          content_analysis := st.content_analysis ++ [out]
          execution_status := StrMap.insert st.execution_status "content_analyzer" "completed" }
      | r =>
        { st with
          content_analysis := st.content_analysis ++ []
          errors := StrMap.insert st.errors "content_analyzer"
            ((retryErrorMessage caTimeoutMsg r).getD "")
          execution_status := StrMap.insert st.execution_status "content_analyzer" "failed" }

/-- The `data_collector → content_analyzer` segment of the compiled graph.
`src/graph.py` line 125 wires this as an unconditional
`builder.add_edge("data_collector", "content_analyzer")`: under the LangGraph
runtime an unconditional edge schedules its target whenever the source node
returns (the nodes in this repository catch their own exceptions and always
return a partial update, so the target always runs).  The second component
lists the nodes that executed, in order. -/
def runCollectorChain {υ γ : Type} (init : PipeState υ γ)
    (dcOp : Nat → AttemptOutcome (List υ)) (caCache : Option γ)
    (caOp : Nat → AttemptOutcome γ) : PipeState υ γ × List String :=
  let s1 := data_collector_node init dcOp
  let s2 := content_analyzer_node s1 caCache caOp
  (s2, ["data_collector", "content_analyzer"])

-- =========================
-- Video analyzer (src/nodes/video_analyzer.py)
-- =========================

/-- A partial update returned by `video_analyzer_node`.  An entry of
`video_analysis` is `none` for the literal empty dict `{}` the skip path
returns, `some out` for an agent output dump. -/
structure VideoAnalyzerResult (γ : Type) where
  video_analysis : Option (List (Option γ)) := none
  errors : Option (StrMap String) := none
  execution_status : Option (StrMap String) := none

/-- `video_analyzer_node` from `src/nodes/video_analyzer.py` (lines 28-252):
`video_urls = load_video_urls() ++ user custom_videos`; with no URLs at all
the node returns early with `video_analysis = [{}]` and status `skipped` (and
no error entry); otherwise the agent runs under the shared retry loop, and a
raise from it is recorded by the outer `except` as status `failed`. -/
def video_analyzer_node {γ : Type} (execution_status errors : StrMap String)
    (config_urls custom_videos : List String)
    (op : Nat → AttemptOutcome γ) : VideoAnalyzerResult γ :=
  let video_urls := config_urls ++ custom_videos
  if video_urls.isEmpty then
    { video_analysis := some [none]
      execution_status := some (StrMap.insert execution_status "video_analyzer" "skipped") }
  else
    match runRetryLoop op with
    | .ok out _ _ =>
      { video_analysis := some [some out]
        execution_status := some (StrMap.insert execution_status "video_analyzer" "completed") }
    | r =>
      { video_analysis := some []
        errors := some (StrMap.insert errors "video_analyzer"
          ((retryErrorMessage vaTimeoutMsg r).getD ""))
        execution_status := some (StrMap.insert execution_status "video_analyzer" "failed") }

-- =========================
-- Fan-in barrier ordering for append channels (src/state.py lines 459-481)
-- =========================

/-- `operator.add` on lists: the reducer declared for `data_urls`,
`content_analysis`, `video_analysis`, `outfit_designs` and `outfit_videos`
in `FashionAnalysisState` (src/state.py lines 470-475). -/
def operator_add {α : Type} (l r : List α) : List α := l ++ r

/-- One parallel branch's partial update to an append-policy channel,
tagged with the branch's position in the graph's declaration order. -/
structure BranchUpdate (α : Type) where
  declIndex : Nat
  update : List α

def insertByDecl {α : Type} (u : BranchUpdate α) :
    List (BranchUpdate α) → List (BranchUpdate α)
  | [] => [u]
  | v :: vs =>
    if u.declIndex ≤ v.declIndex then u :: v :: vs
    else v :: insertByDecl u vs

/-- Stable normalisation of arrived updates into branch-declaration order. -/
def sortByDecl {α : Type} : List (BranchUpdate α) → List (BranchUpdate α)
  | [] => []
  | u :: us => insertByDecl u (sortByDecl us)

/-- Modelled from the spec: the Graph Scheduler's fan-in barrier (the
LangGraph runtime executing the compiled `StateGraph`; not under `src/`)
applies the partial updates of the parallel branches to an append-policy
channel with the `operator.add` reducer in branch-declaration order,
independently of wall-clock arrival order (spec §4.3, §5 ordering
guarantees).  `arrivals` is the arrival-ordered list of branch updates. -/
def applyAppendMerge {α : Type} (base : List α)
    (arrivals : List (BranchUpdate α)) : List α :=
  (sortByDecl arrivals).foldl (fun acc u => operator_add acc u.update) base

-- =========================
-- Concrete instances used by witnesses and counterexamples
-- =========================

/-- A reviewer state freshly arrived at the gate: nothing completed, empty
decision, one design batch present. -/
def reviewerStateFresh : ReviewerState Nat :=
  { execution_status := StrMap.empty
    outfit_review_decision := ReviewDecisionDict.empty
    outfit_designs := [0]
    errors := StrMap.empty }

/-- The resume value `{decision_type: "edit", edit_instructions: "",
selected_outfit_ids: []}` from the spec's review-routing test. -/
def emptyEditResume : ReviewResponse :=
  { decision_type := some "edit"
    edit_instructions := some ""
    selected_outfit_ids := some [] }

/-- `parseReviewDecision emptyEditResume`'s payload. -/
def emptyEditDecision : OutfitReviewDecision :=
  { decision_type := "edit" }

/-- An approve decision dict as merged into the state by the reviewer. -/
def approveDecisionDict : ReviewDecisionDict :=
  { decision_type := some "approve"
    rejection_feedback := some ""
    edit_instructions := some ""
    selected_outfit_ids := some [] }

/-- An operation that times out on every attempt. -/
def alwaysTimeoutOp : Nat → AttemptOutcome Nat := fun _ => .timeout

/-- An operation that fails every attempt with a non-rate-limit error. -/
def alwaysBoomOp : Nat → AttemptOutcome (List String) := fun _ => .failure "boom"

/-- An operation that fails every attempt, for the final-processor-style
loop. -/
def alwaysErrorOp : Nat → Except String Nat := fun _ => .error "boom"

/-- A rate-limit failure message embedding the server hint `retry in 2.5s`. -/
def rateLimitHintMsg : String :=
  "Error 429: You exceeded your current quota. Please retry in 2.5s."

/-- A rate-limit failure message with no parsable hint. -/
def rateLimitNoHintMsg : String := "Error 429: Too Many Requests"

/-- Fails twice with the hint-bearing rate-limit signal, then succeeds. -/
def rlScenarioOp : Nat → AttemptOutcome Nat :=
  fun n => if n < 2 then .failure rateLimitHintMsg else .success 42

/-- Left agent-memories map: the data collector's contribution. -/
def memLeft : StrMap (StrMap Nat) :=
  StrMap.insert StrMap.empty "data_collector"
    (StrMap.insert StrMap.empty "last_analysis" 1)

/-- Right agent-memories map: the video analyzer's contribution. -/
def memRight : StrMap (StrMap Nat) :=
  StrMap.insert StrMap.empty "video_analyzer"
    (StrMap.insert StrMap.empty "processed_videos" 2)

/-- The content-analyzer branch's append update (declared first). -/
def branchA : BranchUpdate Nat := { declIndex := 0, update := [1, 2] }

/-- The video-analyzer branch's append update (declared second). -/
def branchB : BranchUpdate Nat := { declIndex := 1, update := [3] }

/-- An initial chain state: nothing collected yet. -/
def pipeInit : PipeState String Nat :=
  { url_list := []
    content_analysis := []
    execution_status := StrMap.empty
    errors := StrMap.empty }

/-- A content-analyzer agent stub (never consulted in the runs below). -/
def caStubOp : Nat → AttemptOutcome Nat := fun _ => .timeout

/-- A designer state re-entered with an edit decision. -/
def designerStateEdit : DesignerState Nat Nat :=
  { outfit_review_decision :=
      { decision_type := some "edit"
        rejection_feedback := some ""
        edit_instructions := some "make it red"
        selected_outfit_ids := some ["outfit_0"] }
    outfit_designs := [7]
    trend_analysis := some 5
    execution_status := StrMap.insert StrMap.empty "outfit_reviewer" "edit_requested"
    errors := StrMap.empty }

/-- A designer agent that succeeds immediately. -/
def designerOkOp : DesignerInput Nat Nat → Nat → Except String Nat :=
  fun _ _ => .ok 99

/-- Fails every attempt with a hint-less rate-limit signal. -/
def rlNoHintOp : Nat → AttemptOutcome Nat := fun _ => .failure rateLimitNoHintMsg

/-- A reviewer state re-surfaced after a FAILED edit revision: the designer's
failure path (src/nodes/outfit_designer.py lines 262-272) returns without
clearing `outfit_review_decision` or resetting the reviewer status, and the
static edge `outfit_designer -> outfit_reviewer` re-fires the gate with the
stale `edit` decision still stored. -/
def reviewerStateStaleEdit : ReviewerState Nat :=
  { execution_status :=
      StrMap.insert (StrMap.insert StrMap.empty "outfit_reviewer" "edit_requested")
        "outfit_designer" "failed"
    outfit_review_decision :=
      { decision_type := some "edit"
        rejection_feedback := some ""
        edit_instructions := some "make it red"
        selected_outfit_ids := some [] }
    outfit_designs := [0]
    errors := StrMap.empty }

/-- The resume value `{decision_type: "reject", rejection_feedback: ""}` —
invalid, since reject demands non-empty feedback. -/
def emptyRejectResume : ReviewResponse :=
  { decision_type := some "reject"
    rejection_feedback := some "" }

-- =========================
-- Shared helper lemmas
-- =========================

theorem beq_false_of_getD_ne {o : Option String} {s : String}
    (h : o.getD "" ≠ s) : (o == some s) = false := by
  cases o with
  | none => rfl
  | some t =>
    simp only [Option.getD] at h
    simp [h]

theorem strMap_insert_same {α : Type} (m : StrMap α) (k : String) (v : α) :
    StrMap.insert m k v k = some v := by
  simp [StrMap.insert]

theorem strMap_insert_other {α : Type} (m : StrMap α) (k q : String) (v : α)
    (h : q ≠ k) : StrMap.insert m k v q = m q := by
  simp [StrMap.insert, h]

-- =========================
-- C2
-- =========================

/-- C2: `route_after_review` returns `video_generator` on `approve`, the
`END` label on `reject`, `outfit_designer` on `edit`, and `outfit_reviewer`
on any other or absent decision type; every label it can return is mapped in
the conditional-edge transition table for the `outfit_reviewer` stage. -/
theorem route_after_review_correct (d : ReviewDecisionDict) :
    (d.decision_type.getD "" = "approve" → route_after_review d = "video_generator")
    ∧ (d.decision_type.getD "" = "reject" → route_after_review d = END_LABEL)
    ∧ (d.decision_type.getD "" = "edit" → route_after_review d = "outfit_designer")
    ∧ (d.decision_type.getD "" ∉ (["approve", "reject", "edit"] : List String) →
        route_after_review d = "outfit_reviewer")
    ∧ route_after_review d ∈ review_transition_table.map (fun p => p.1) := by
  refine ⟨?_, ?_, ?_, ?_, ?_⟩
  · intro h
    simp [route_after_review, h]
  · intro h
    simp [route_after_review, h]
  · intro h
    simp [route_after_review, h]
  · intro h
    simp only [List.mem_cons, List.mem_singleton, not_or] at h
    obtain ⟨h1, h2, h3, -⟩ := h
    simp [route_after_review, h1, h2, h3]
  · by_cases h1 : d.decision_type.getD "" = "approve"
    · simp [route_after_review, h1, review_transition_table]
    by_cases h2 : d.decision_type.getD "" = "reject"
    · simp [route_after_review, h2, review_transition_table]
    by_cases h3 : d.decision_type.getD "" = "edit"
    · simp [route_after_review, h1, h2, h3, review_transition_table]
    · simp [route_after_review, h1, h2, h3, review_transition_table]

/-- C2 witness: evaluating the routing on a concrete approve decision. -/
theorem route_after_review_correct_witness :
    route_after_review approveDecisionDict = "video_generator"
    ∧ route_after_review ReviewDecisionDict.empty = "outfit_reviewer" := by
  refine ⟨(route_after_review_correct approveDecisionDict).1 rfl, ?_⟩
  exact (route_after_review_correct ReviewDecisionDict.empty).2.2.2.1 (by decide)

-- =========================
-- C5
-- =========================

/-- C5: `merge_agent_memories` loses no data on disjoint sub-keys — every
sub-entry contributed by the right map survives, and every left sub-entry
whose sub-key the right side does not touch survives — and when both sides
hold a mapping at the same top-level key the merge recurses exactly one
level with right-hand sub-values winning on colliding sub-keys. -/
theorem merge_agent_memories_correct {α : Type} (l r : StrMap (StrMap α)) :
    (∀ k rd, r k = some rd → ∀ sk v, rd sk = some v →
      ∃ m, merge_agent_memories l r k = some m ∧ m sk = some v)
    ∧ (∀ k ld sk v, l k = some ld → ld sk = some v →
        (∀ rd, r k = some rd → rd sk = none) →
        ∃ m, merge_agent_memories l r k = some m ∧ m sk = some v)
    ∧ (∀ k ld rd, l k = some ld → r k = some rd →
        merge_agent_memories l r k = some (StrMap.union ld rd)
        ∧ (∀ sk v, rd sk = some v → StrMap.union ld rd sk = some v)
        ∧ (∀ sk, rd sk = none → StrMap.union ld rd sk = ld sk)) := by
  refine ⟨?_, ?_, ?_⟩
  · intro k rd hr sk v hv
    cases hl : l k with
    | none =>
      refine ⟨rd, ?_, hv⟩
      simp [merge_agent_memories, hr, hl]
    | some ld =>
      refine ⟨StrMap.union ld rd, ?_, ?_⟩
      · simp [merge_agent_memories, hr, hl]
      · simp [StrMap.union, hv]
  · intro k ld sk v hl hv hdisj
    cases hr : r k with
    | none =>
      refine ⟨ld, ?_, hv⟩
      simp [merge_agent_memories, hr, hl]
    | some rd =>
      refine ⟨StrMap.union ld rd, ?_, ?_⟩
      · simp [merge_agent_memories, hr, hl]
      · simp [StrMap.union, hdisj rd hr, hv]
  · intro k ld rd hl hr
    refine ⟨?_, ?_, ?_⟩
    · simp [merge_agent_memories, hr, hl]
    · intro sk v hv
      simp [StrMap.union, hv]
    · intro sk hv
      simp [StrMap.union, hv]

/-- C5 witness: the data collector's and video analyzer's contributions to
disjoint top-level keys both survive the merge. -/
theorem merge_agent_memories_correct_witness :
    (∃ m, merge_agent_memories memLeft memRight "video_analyzer" = some m
      ∧ m "processed_videos" = some 2)
    ∧ (∃ m, merge_agent_memories memLeft memRight "data_collector" = some m
      ∧ m "last_analysis" = some 1) := by
  constructor
  · exact (merge_agent_memories_correct memLeft memRight).1 "video_analyzer"
      (StrMap.insert StrMap.empty "processed_videos" 2) rfl "processed_videos" 2 rfl
  · exact (merge_agent_memories_correct memLeft memRight).2.1 "data_collector"
      (StrMap.insert StrMap.empty "last_analysis" 1) "last_analysis" 1 rfl rfl
      (fun rd hrd => by cases hrd)

-- =========================
-- C6
-- =========================

/-- C6: the merged sequence of an append-policy channel after the fan-in is
determined by branch-declaration order, not arrival order — swapping the
arrival order of two branch updates with distinct declaration indices yields
the identical merged list. -/
theorem append_merge_arrival_invariant {α : Type} (base : List α)
    (u1 u2 : BranchUpdate α) (h : u1.declIndex ≠ u2.declIndex) :
    applyAppendMerge base [u1, u2] = applyAppendMerge base [u2, u1] := by
  unfold applyAppendMerge
  simp only [sortByDecl, insertByDecl]
  by_cases h12 : u1.declIndex ≤ u2.declIndex
  · rw [if_pos h12, if_neg (by omega)]
  · rw [if_neg h12, if_pos (by omega)]

/-- C6 witness: the two analysis branches' updates merge identically in
either arrival order. -/
theorem append_merge_arrival_invariant_witness :
    applyAppendMerge ([] : List Nat) [branchA, branchB]
      = applyAppendMerge [] [branchB, branchA] :=
  append_merge_arrival_invariant [] branchA branchB (by decide)

-- =========================
-- C10
-- =========================

/-- C10: a resume value that fails `UserInput` validation makes the initial
gate fail open — the node records no error and no execution status (so
nothing re-surfaces the gate and nothing marks a failure), returns the
default empty `user_input` with the state's query (falling back to
`Fashion trend analysis` when the state has none), and the static edges
advance the run to the two parallel analysis branches. -/
theorem user_input_gate_fails_open (sq : Option String) (e : String) :
    (user_input_collector_node sq (.error e)).user_input = some defaultUserInput
    ∧ defaultUserInput.custom_urls = []
    ∧ defaultUserInput.custom_images = []
    ∧ defaultUserInput.custom_videos = []
    ∧ (user_input_collector_node sq (.error e)).errors = none
    ∧ (user_input_collector_node sq (.error e)).execution_status = none
    ∧ (user_input_collector_node sq (.error e)).query
        = some (sq.getD "Fashion trend analysis")
    ∧ (sq = none →
        (user_input_collector_node sq (.error e)).query = some "Fashion trend analysis")
    ∧ successors "user_input_collector" = ["data_collector", "video_analyzer"] := by
  refine ⟨rfl, rfl, rfl, rfl, rfl, rfl, rfl, ?_, by decide⟩
  intro h
  subst h
  rfl

/-- C10 witness: the gate's behaviour on a concrete failed validation with no
query in the state. -/
theorem user_input_gate_fails_open_witness :
    (user_input_collector_node none (.error "not a mapping")).user_input
        = some defaultUserInput
    ∧ (user_input_collector_node none (.error "not a mapping")).errors = none
    ∧ (user_input_collector_node none (.error "not a mapping")).query
        = some "Fashion trend analysis" := by
  obtain ⟨h1, -, -, -, h5, -, -, h8, -⟩ :=
    user_input_gate_fails_open none "not a mapping"
  exact ⟨h1, h5, h8 rfl⟩

-- =========================
-- Retry-loop step lemmas
-- =========================

theorem retryGo_success {α : Type} {op : Nat → AttemptOutcome α} {a : Nat}
    {v : α} (r : Nat) (s : List ℚ) (h : op a = .success v) :
    retryGo op r a s = .ok v (a + 1) s := by
  cases r <;> simp [retryGo, h]

theorem retryGo_timeout_step {α : Type} {op : Nat → AttemptOutcome α}
    {a : Nat} (r : Nat) (s : List ℚ) (h : op a = .timeout) :
    retryGo op (r + 1) a s = retryGo op r (a + 1) (s ++ [BASE_DELAY]) := by
  simp [retryGo, h]

theorem retryGo_timeout_exhaust {α : Type} {op : Nat → AttemptOutcome α}
    {a : Nat} (s : List ℚ) (h : op a = .timeout) :
    retryGo op 0 a s = .timeoutExhausted (a + 1) s := by
  simp [retryGo, h]

theorem retryGo_const_timeout {α : Type} (op : Nat → AttemptOutcome α)
    (hop : ∀ n, op n = .timeout) :
    ∀ (r a : Nat) (s : List ℚ),
      retryGo op r a s = .timeoutExhausted (a + r + 1) (s ++ List.replicate r BASE_DELAY)
  | 0, a, s => by
    rw [retryGo_timeout_exhaust s (hop a)]
    simp
  | r + 1, a, s => by
    rw [retryGo_timeout_step r s (hop a), retryGo_const_timeout op hop r (a + 1)]
    simp [List.replicate_succ]
    omega

theorem expRetry_error_exhaust {α : Type} {op : Nat → Except String α}
    {a : Nat} {e : String} (s : List ℚ) (h : op a = .error e) :
    expRetryAllErrors op 0 a s = (.error e, a + 1, s) := by
  simp [expRetryAllErrors, h]

theorem expRetry_error_step {α : Type} {op : Nat → Except String α}
    {a : Nat} {e : String} (r : Nat) (s : List ℚ) (h : op a = .error e) :
    expRetryAllErrors op (r + 1) a s
      = expRetryAllErrors op r (a + 1) (s ++ [BASE_DELAY * 2 ^ a]) := by
  simp [expRetryAllErrors, h]

-- =========================
-- C3 (corrected)
-- =========================

/-- C3 counterexample: on an operation that times out on every attempt, the
`range(MAX_RETRIES + 1)` retry loop of the data collector (with
`MAX_RETRIES = 3`) makes 4 attempts — not the 3 the claim states — before
raising the terminal timeout error. -/
theorem retry_timeout_attempts_counterexample :
    runRetryLoop alwaysTimeoutOp
      = .timeoutExhausted 4 [BASE_DELAY, BASE_DELAY, BASE_DELAY]
    ∧ (runRetryLoop alwaysTimeoutOp).attempts = 4
    ∧ (runRetryLoop alwaysTimeoutOp).attempts ≠ 3 :=
  ⟨rfl, rfl, by decide⟩

/-- C3 amended: with `MAX_RETRIES = 3`, the data-collector-style executor
makes exactly `MAX_RETRIES + 1 = 4` attempts on an always-timing-out
operation (sleeping the fixed `BASE_DELAY` between attempts) and then raises
the terminal `RuntimeError` identifying timeout as the exhaustion cause,
while the final-processor-style `range(MAX_RETRIES)` loop makes exactly 3
attempts and re-raises the last underlying error (with exponential sleeps,
not a timeout-specific terminal error). -/
theorem retry_exhaustion_amended (op : Nat → AttemptOutcome Nat)
    (fop : Nat → Except String Nat) (e : String)
    (hop : ∀ n, op n = .timeout) (hfop : ∀ n, fop n = .error e) :
    runRetryLoop op
      = .timeoutExhausted (MAX_RETRIES + 1) (List.replicate MAX_RETRIES BASE_DELAY)
    ∧ (runRetryLoop op).attempts = 4
    ∧ runExpRetryAllErrors fop
      = (.error e, MAX_RETRIES, [BASE_DELAY * 2 ^ 0, BASE_DELAY * 2 ^ 1])
    ∧ (runExpRetryAllErrors fop).2.1 = 3 := by
  have h1 : runRetryLoop op
      = .timeoutExhausted (MAX_RETRIES + 1) (List.replicate MAX_RETRIES BASE_DELAY) := by
    unfold runRetryLoop
    rw [retryGo_const_timeout op hop MAX_RETRIES 0 []]
    simp [MAX_RETRIES]
  have h2 : runExpRetryAllErrors fop
      = (.error e, MAX_RETRIES, [BASE_DELAY * 2 ^ 0, BASE_DELAY * 2 ^ 1]) := by
    unfold runExpRetryAllErrors
    calc expRetryAllErrors fop (MAX_RETRIES - 1) 0 []
        = expRetryAllErrors fop 1 1 ([] ++ [BASE_DELAY * 2 ^ 0]) :=
          expRetry_error_step (a := 0) 1 [] (hfop 0)
      _ = expRetryAllErrors fop 0 2
            (([] ++ [BASE_DELAY * 2 ^ 0]) ++ [BASE_DELAY * 2 ^ 1]) :=
          expRetry_error_step (a := 1) 0 ([] ++ [BASE_DELAY * 2 ^ 0]) (hfop 1)
      _ = (.error e, MAX_RETRIES, [BASE_DELAY * 2 ^ 0, BASE_DELAY * 2 ^ 1]) := by
          rw [expRetry_error_exhaust _ (hfop 2)]
          simp [MAX_RETRIES]
  refine ⟨h1, ?_, h2, ?_⟩
  · rw [h1]
    rfl
  · rw [h2]
    rfl

/-- C3 witness: the amended attempt counts evaluated on concrete
always-failing operations. -/
theorem retry_exhaustion_amended_witness :
    runRetryLoop alwaysTimeoutOp
      = .timeoutExhausted (MAX_RETRIES + 1) (List.replicate MAX_RETRIES BASE_DELAY)
    ∧ (runExpRetryAllErrors alwaysErrorOp).2.1 = 3 := by
  obtain ⟨h1, -, -, h4⟩ :=
    retry_exhaustion_amended alwaysTimeoutOp alwaysErrorOp "boom"
      (fun _ => rfl) (fun _ => rfl)
  exact ⟨h1, h4⟩

-- =========================
-- C4
-- =========================

theorem pyFloat_two_five : pyFloat "2.5" = some (5 / 2) := by
  have h : pyFloat "2.5"
      = some (((2 : ℕ) : ℚ) + ((5 : ℕ) : ℚ) / (10 : ℚ) ^ (1 : ℕ)) := rfl
  rw [h]
  norm_num

theorem retryGo_rl_hint_step {α : Type} {op : Nat → AttemptOutcome α}
    {a : Nat} {m g : String} {q : ℚ} (r : Nat) (s : List ℚ)
    (h : op a = .failure m) (hrl : isRateLimit m = true)
    (hg : findRetryHintGroup m = some g) (hq : pyFloat g = some q) :
    retryGo op (r + 1) a s = retryGo op r (a + 1) (s ++ [q]) := by
  simp [retryGo, h, hrl, hg, hq]

theorem retryGo_rl_nohint_step {α : Type} {op : Nat → AttemptOutcome α}
    {a : Nat} {m : String} (r : Nat) (s : List ℚ)
    (h : op a = .failure m) (hrl : isRateLimit m = true)
    (hg : findRetryHintGroup m = none) :
    retryGo op (r + 1) a s = retryGo op r (a + 1) (s ++ [BASE_DELAY * 2 ^ a]) := by
  simp [retryGo, h, hrl, hg]

/-- C4: for a rate-limited failure with retries left, the delay slept before
the next attempt is the server-provided hint parsed from a `retry in Xs`
pattern when one is present, and `BASE_DELAY * 2 ^ attempt` otherwise; in
particular an operation failing twice with a rate-limit signal embedding
`retry in 2.5s` and succeeding on the third attempt sleeps 2.5 seconds
before each retry, makes 3 attempts in total, and returns the success
result. -/
theorem rate_limit_delay_policy :
    (∀ (op : Nat → AttemptOutcome Nat) (r a : Nat) (s : List ℚ) (m g : String) (q : ℚ),
      op a = .failure m → isRateLimit m = true →
      findRetryHintGroup m = some g → pyFloat g = some q →
      retryGo op (r + 1) a s = retryGo op r (a + 1) (s ++ [q]))
    ∧ (∀ (op : Nat → AttemptOutcome Nat) (r a : Nat) (s : List ℚ) (m : String),
      op a = .failure m → isRateLimit m = true →
      findRetryHintGroup m = none →
      retryGo op (r + 1) a s = retryGo op r (a + 1) (s ++ [BASE_DELAY * 2 ^ a]))
    ∧ runRetryLoop rlScenarioOp = .ok 42 3 [5 / 2, 5 / 2] := by
  refine ⟨fun op r a s m g q h hrl hg hq => retryGo_rl_hint_step r s h hrl hg hq,
          fun op r a s m h hrl hg => retryGo_rl_nohint_step r s h hrl hg, ?_⟩
  have hrl : isRateLimit rateLimitHintMsg = true := by decide
  have hg : findRetryHintGroup rateLimitHintMsg = some "2.5" := by decide
  calc runRetryLoop rlScenarioOp
      = retryGo rlScenarioOp (2 + 1) 0 [] := rfl
    _ = retryGo rlScenarioOp 2 1 ([] ++ [(5 : ℚ) / 2]) :=
        retryGo_rl_hint_step 2 [] rfl hrl hg pyFloat_two_five
    _ = retryGo rlScenarioOp (1 + 1) 1 [(5 : ℚ) / 2] := rfl
    _ = retryGo rlScenarioOp 1 2 ([(5 : ℚ) / 2] ++ [(5 : ℚ) / 2]) :=
        retryGo_rl_hint_step 1 [(5 : ℚ) / 2] rfl hrl hg pyFloat_two_five
    _ = .ok 42 3 [5 / 2, 5 / 2] := retryGo_success 1 _ rfl

/-- C4 witness: the hint-delay and exponential-delay rules evaluated at
concrete rate-limited operations. -/
theorem rate_limit_delay_policy_witness :
    retryGo rlScenarioOp (2 + 1) 0 [] = retryGo rlScenarioOp 2 1 ([] ++ [(5 : ℚ) / 2])
    ∧ retryGo rlNoHintOp (2 + 1) 0 []
        = retryGo rlNoHintOp 2 1 ([] ++ [BASE_DELAY * 2 ^ 0]) := by
  constructor
  · exact rate_limit_delay_policy.1 rlScenarioOp 2 0 [] rateLimitHintMsg "2.5" (5 / 2)
      rfl (by decide) (by decide) pyFloat_two_five
  · exact rate_limit_delay_policy.2.1 rlNoHintOp 2 0 [] rateLimitNoHintMsg
      rfl (by decide) (by decide)

-- =========================
-- C1 (corrected)
-- =========================

theorem getD_ne_of_ne_some {o : Option String} {t : String}
    (h : o ≠ some t) (ht : t ≠ "") : o.getD "" ≠ t := by
  cases o with
  | none => simpa using Ne.symm ht
  | some u => simpa using fun hu => h (by rw [hu])

/-- C1 counterexample: the gate's pass-through guard only skips on a stored
approve/reject decision, so after a failed edit revision it re-fires with the
stale `edit` decision still in the state; an invalid resume (`reject` with
empty feedback) then records the stage-level error and leaves the status
untouched, but the routing function reads the unchanged `edit` decision and
returns `outfit_designer` — not `outfit_reviewer` as the claim asserts. -/
theorem outfit_reviewer_stale_edit_counterexample :
    (∃ msg, (outfit_reviewer_node reviewerStateStaleEdit emptyRejectResume).errors
        = some (StrMap.insert reviewerStateStaleEdit.errors "outfit_reviewer"
            ("Invalid review decision: " ++ msg)))
    ∧ (outfit_reviewer_node reviewerStateStaleEdit emptyRejectResume).execution_status
        = none
    ∧ route_after_review
        (applyReviewerResult reviewerStateStaleEdit
          (outfit_reviewer_node reviewerStateStaleEdit emptyRejectResume)).outfit_review_decision
        = "outfit_designer"
    ∧ route_after_review
        (applyReviewerResult reviewerStateStaleEdit
          (outfit_reviewer_node reviewerStateStaleEdit emptyRejectResume)).outfit_review_decision
        ≠ "outfit_reviewer" := by
  exact ⟨⟨rejectFeedbackMandatoryMsg, rfl⟩, rfl, rfl, by decide⟩

/-- C1 amended: an invalid resume at the outfit review gate (`reject` with
empty feedback, `edit` with empty instructions, or an unrecognized tag)
records a stage-level error under the `outfit_reviewer` key and returns no
`execution_status` update, so the stage is never marked `completed`; the
subsequent routing decision is driven by the unchanged stored decision:
on the normal path, where no `edit` decision is stored, control returns to
`outfit_reviewer`, but when the gate re-fired with a stale `edit` decision
left by a failed revision the invalid resume routes to `outfit_designer`
instead.  The hypotheses are exactly the gate's reachability conditions:
review not completed, stored decision not approve/reject (the pass-through
guard), designs present. -/
theorem outfit_reviewer_invalid_resume {α : Type} (st : ReviewerState α)
    (resume : ReviewResponse) (d : OutfitReviewDecision)
    (hstatus : st.execution_status "outfit_reviewer" ≠ some "completed")
    (hprev1 : st.outfit_review_decision.decision_type ≠ some "approve")
    (hprev2 : st.outfit_review_decision.decision_type ≠ some "reject")
    (hdesigns : st.outfit_designs.isEmpty = false)
    (hparse : parseReviewDecision resume = .ok d)
    (hbad : (d.decision_type = "reject" ∧ d.rejection_feedback = "")
          ∨ (d.decision_type = "edit" ∧ d.edit_instructions = "")
          ∨ d.decision_type ∉ (["approve", "reject", "edit"] : List String)) :
    (∃ msg, (outfit_reviewer_node st resume).errors
        = some (StrMap.insert st.errors "outfit_reviewer"
            ("Invalid review decision: " ++ msg)))
    ∧ (outfit_reviewer_node st resume).execution_status = none
    ∧ (applyReviewerResult st (outfit_reviewer_node st resume)).execution_status
        "outfit_reviewer" ≠ some "completed"
    ∧ (st.outfit_review_decision.decision_type.getD "" ≠ "edit" →
        route_after_review
          (applyReviewerResult st (outfit_reviewer_node st resume)).outfit_review_decision
          = "outfit_reviewer")
    ∧ (st.outfit_review_decision.decision_type.getD "" = "edit" →
        route_after_review
          (applyReviewerResult st (outfit_reviewer_node st resume)).outfit_review_decision
          = "outfit_designer") := by
  have hb0 : (st.execution_status "outfit_reviewer" == some "completed") = false :=
    beq_eq_false_iff_ne.mpr hstatus
  have hb1 : (st.outfit_review_decision.decision_type == some "approve") = false :=
    beq_eq_false_iff_ne.mpr hprev1
  have hb2 : (st.outfit_review_decision.decision_type == some "reject") = false :=
    beq_eq_false_iff_ne.mpr hprev2
  have hsuff : ∃ msg, outfit_reviewer_node st resume = reviewerInvalidReturn st msg := by
    rcases hbad with ⟨ha, hb⟩ | ⟨ha, hb⟩ | hc
    · exact ⟨rejectFeedbackMandatoryMsg, by
        simp [outfit_reviewer_node, hb0, hb1, hb2, hdesigns, hparse, ha, hb]⟩
    · exact ⟨editInstructionsMandatoryMsg, by
        simp [outfit_reviewer_node, hb0, hb1, hb2, hdesigns, hparse, ha, hb]⟩
    · simp only [List.mem_cons, List.mem_singleton, not_or] at hc
      obtain ⟨hc1, hc2, hc3, -⟩ := hc
      exact ⟨"Invalid decision_type: " ++ d.decision_type, by
        simp [outfit_reviewer_node, hb0, hb1, hb2, hdesigns, hparse, hc1, hc2, hc3]⟩
  obtain ⟨msg, hnode⟩ := hsuff
  rw [hnode]
  refine ⟨⟨msg, rfl⟩, rfl, ?_, ?_, ?_⟩
  · simpa [applyReviewerResult, reviewerInvalidReturn] using hstatus
  · intro hne
    simp [applyReviewerResult, reviewerInvalidReturn, route_after_review,
      beq_eq_false_iff_ne.mpr (getD_ne_of_ne_some hprev1 (by decide)),
      beq_eq_false_iff_ne.mpr (getD_ne_of_ne_some hprev2 (by decide)),
      beq_eq_false_iff_ne.mpr hne]
  · intro heq
    simp [applyReviewerResult, reviewerInvalidReturn, route_after_review, heq]

/-- C1 witness: the spec's review-routing test input — `edit` with empty
instructions — on a fresh reviewer state re-surfaces the gate, while the same
theorem applied at the stale-edit state routes to the designer. -/
theorem outfit_reviewer_invalid_resume_witness :
    ((∃ msg, (outfit_reviewer_node reviewerStateFresh emptyEditResume).errors
        = some (StrMap.insert StrMap.empty "outfit_reviewer"
            ("Invalid review decision: " ++ msg)))
      ∧ (outfit_reviewer_node reviewerStateFresh emptyEditResume).execution_status = none
      ∧ route_after_review
          (applyReviewerResult reviewerStateFresh
            (outfit_reviewer_node reviewerStateFresh emptyEditResume)).outfit_review_decision
          = "outfit_reviewer")
    ∧ route_after_review
        (applyReviewerResult reviewerStateStaleEdit
          (outfit_reviewer_node reviewerStateStaleEdit emptyRejectResume)).outfit_review_decision
        = "outfit_designer" := by
  obtain ⟨h1, h2, -, h4, -⟩ :=
    outfit_reviewer_invalid_resume reviewerStateFresh emptyEditResume emptyEditDecision
      (by decide) (by decide) (by decide) (by decide) rfl (Or.inr (Or.inl ⟨rfl, rfl⟩))
  obtain ⟨-, -, -, -, h5⟩ :=
    outfit_reviewer_invalid_resume reviewerStateStaleEdit emptyRejectResume
      { decision_type := "reject" }
      (by decide) (by decide) (by decide) (by decide) rfl (Or.inl ⟨rfl, rfl⟩)
  exact ⟨⟨h1, h2, h4 (by decide)⟩, h5 rfl⟩

-- =========================
-- C7 (corrected)
-- =========================

theorem retryGo_fatal {α : Type} {op : Nat → AttemptOutcome α} {a : Nat}
    {m : String} (r : Nat) (s : List ℚ) (h : op a = .failure m)
    (hrl : isRateLimit m = false) :
    retryGo op r a s = .fatal m (a + 1) s := by
  cases r <;> simp [retryGo, h, hrl]

/-- C7 counterexample: a data-collector run whose agent raises a fatal error
is recorded as `failed`, yet the downstream `content_analyzer` — a hard
successor of the failed stage — still executes in that run (and itself
fails on the missing input), refuting the claim that downstream stages never
execute after a recorded failure. -/
theorem stage_failure_advances_counterexample :
    (runCollectorChain pipeInit alwaysBoomOp none caStubOp).1.execution_status
        "data_collector" = some "failed"
    ∧ "content_analyzer" ∈ (runCollectorChain pipeInit alwaysBoomOp none caStubOp).2
    ∧ (runCollectorChain pipeInit alwaysBoomOp none caStubOp).1.execution_status
        "content_analyzer" = some "failed" := by
  refine ⟨rfl, by decide, rfl⟩

/-- C7 amended: a stage that raises is caught inside the stage itself (not by
the scheduler), recorded in `execution_status` as `failed` and in the errors
map under its own key, and the run still advances along the static edges —
downstream stages execute and must guard themselves against the missing
upstream data (here `content_analyzer` runs and records its own failure,
`No URLs from data collector`). -/
theorem stage_failure_advances_amended {υ γ : Type} (init : PipeState υ γ)
    (e : String) (dcOp : Nat → AttemptOutcome (List υ))
    (caOp : Nat → AttemptOutcome γ)
    (hdc : ∀ n, dcOp n = .failure e) (hrl : isRateLimit e = false) :
    (runCollectorChain init dcOp none caOp).1.execution_status "data_collector"
        = some "failed"
    ∧ (runCollectorChain init dcOp none caOp).1.errors "data_collector" = some e
    ∧ (runCollectorChain init dcOp none caOp).2
        = ["data_collector", "content_analyzer"]
    ∧ (runCollectorChain init dcOp none caOp).1.execution_status "content_analyzer"
        = some "failed"
    ∧ (runCollectorChain init dcOp none caOp).1.errors "content_analyzer"
        = some "No URLs from data collector" := by
  have hret : runRetryLoop dcOp = .fatal e 1 [] :=
    retryGo_fatal MAX_RETRIES [] (hdc 0) hrl
  simp [runCollectorChain, data_collector_node, content_analyzer_node, hret,
    retryErrorMessage, StrMap.insert]

/-- C7 witness: the amended behaviour evaluated on a concrete fatally-failing
data collector. -/
theorem stage_failure_advances_amended_witness :
    (runCollectorChain pipeInit alwaysBoomOp none caStubOp).1.errors "data_collector"
        = some "boom"
    ∧ (runCollectorChain pipeInit alwaysBoomOp none caStubOp).2
        = ["data_collector", "content_analyzer"]
    ∧ (runCollectorChain pipeInit alwaysBoomOp none caStubOp).1.errors
        "content_analyzer" = some "No URLs from data collector" := by
  obtain ⟨-, h2, h3, -, h5⟩ :=
    stage_failure_advances_amended pipeInit "boom" alwaysBoomOp caStubOp
      (fun _ => rfl) (by decide)
  exact ⟨h2, h3, h5⟩

-- =========================
-- C8 (corrected)
-- =========================

/-- C8 counterexample: the content analyzer with an absent URL list records
`failed` — not `skipped` — refuting the claim that every stage with missing
upstream input is marked `skipped`. -/
theorem missing_input_status_counterexample :
    (content_analyzer_node pipeInit none caStubOp).execution_status "content_analyzer"
        = some "failed"
    ∧ (content_analyzer_node pipeInit none caStubOp).execution_status "content_analyzer"
        ≠ some "skipped"
    ∧ (content_analyzer_node pipeInit none caStubOp).errors "content_analyzer"
        = some "No URLs from data collector" := by
  refine ⟨rfl, by decide, rfl⟩

/-- C8 amended: the video analyzer with no configured or user video URLs and
the outfit designer with no trend analysis set their execution status to
`skipped` (the video analyzer without an error entry) and return normally so
the run continues along the static edges; the content analyzer with an absent
URL list, however, records `failed` with the error
`No URLs from data collector` (while still returning normally). -/
theorem missing_input_status_amended {υ γ τ δ : Type}
    (es errs : StrMap String) (vop : Nat → AttemptOutcome γ)
    (st : DesignerState τ δ) (dop : DesignerInput τ δ → Nat → Except String δ)
    (stp : PipeState υ γ) (cop : Nat → AttemptOutcome γ)
    (hta : st.trend_analysis = none) (hurl : stp.url_list = []) :
    (video_analyzer_node es errs [] [] vop).execution_status
        = some (StrMap.insert es "video_analyzer" "skipped")
    ∧ (video_analyzer_node es errs [] [] vop).errors = none
    ∧ (outfit_designer_node st none dop).execution_status
        = some (StrMap.insert st.execution_status "outfit_designer" "skipped")
    ∧ (content_analyzer_node stp none cop).execution_status "content_analyzer"
        = some "failed"
    ∧ (content_analyzer_node stp none cop).errors "content_analyzer"
        = some "No URLs from data collector"
    ∧ successors "video_analyzer" = ["coordination"]
    ∧ successors "outfit_designer" = ["outfit_reviewer"] := by
  refine ⟨?_, ?_, ?_, ?_, ?_, by decide, by decide⟩
  · simp [video_analyzer_node]
  · simp [video_analyzer_node]
  · simp [outfit_designer_node, hta]
  · simp [content_analyzer_node, hurl, StrMap.insert]
  · simp [content_analyzer_node, hurl, StrMap.insert]

/-- C8 witness: the skip statuses evaluated on concrete empty inputs. -/
theorem missing_input_status_amended_witness :
    (video_analyzer_node StrMap.empty StrMap.empty [] [] caStubOp).errors = none
    ∧ (content_analyzer_node pipeInit none caStubOp).errors "content_analyzer"
        = some "No URLs from data collector" := by
  obtain ⟨-, h2, -, -, h5, -, -⟩ :=
    missing_input_status_amended StrMap.empty StrMap.empty caStubOp
      { outfit_review_decision := ReviewDecisionDict.empty
        outfit_designs := ([] : List Nat)
        trend_analysis := (none : Option Nat)
        execution_status := StrMap.empty
        errors := StrMap.empty }
      (fun _ _ => .error "unused") pipeInit caStubOp rfl rfl
  exact ⟨h2, h5⟩

-- =========================
-- C9
-- =========================

/-- C9: on an `edit` review decision the outfit designer detects the
revision re-entry — its result is the same whether or not a cached output
file exists (the cache path is skipped) — consumes the decision's
`edit_instructions` and `selected_outfit_ids` into the agent input that
scopes the regeneration, and, when the regeneration succeeds, its partial
update clears `outfit_review_decision` to the empty mapping and resets
`execution_status["outfit_reviewer"]` to `pending` (while completing the
designer) so the review gate fires again on the new output. -/
theorem designer_edit_revision {τ δ : Type} (st : DesignerState τ δ)
    (cache : Option δ) (op : DesignerInput τ δ → Nat → Except String δ)
    (ta : τ) (out : δ)
    (hedit : st.outfit_review_decision.decision_type = some "edit")
    (hta : st.trend_analysis = some ta)
    (hok : (runExpRetryAllErrors (op (buildDesignerInput st ta))).1 = .ok out) :
    outfit_designer_node st cache op = outfit_designer_node st none op
    ∧ (buildDesignerInput st ta).revision_mode = true
    ∧ (buildDesignerInput st ta).edit_instructions
        = some (st.outfit_review_decision.edit_instructions.getD "")
    ∧ (buildDesignerInput st ta).selected_outfits
        = some (st.outfit_review_decision.selected_outfit_ids.getD [])
    ∧ (buildDesignerInput st ta).existing_outfits = some st.outfit_designs
    ∧ (outfit_designer_node st cache op).outfit_review_decision
        = some ReviewDecisionDict.empty
    ∧ (∃ m, (outfit_designer_node st cache op).execution_status = some m
        ∧ m "outfit_reviewer" = some "pending"
        ∧ m "outfit_designer" = some "completed")
    ∧ (outfit_designer_node st cache op).outfit_designs = some [out] := by
  have hedit' : isEditRequest st = true := by
    simp [isEditRequest, hedit]
  have hnode : outfit_designer_node st cache op
      = { outfit_designs := some [out]
          execution_status := some (StrMap.insert
            (StrMap.insert st.execution_status "outfit_designer" "completed")
            "outfit_reviewer" "pending")
          outfit_review_decision := some ReviewDecisionDict.empty } := by
    simp [outfit_designer_node, hedit', hta, hok]
  have hnone : outfit_designer_node st none op
      = { outfit_designs := some [out]
          execution_status := some (StrMap.insert
            (StrMap.insert st.execution_status "outfit_designer" "completed")
            "outfit_reviewer" "pending")
          outfit_review_decision := some ReviewDecisionDict.empty } := by
    simp [outfit_designer_node, hedit', hta, hok]
  refine ⟨hnode.trans hnone.symm, ?_, ?_, ?_, ?_, ?_, ?_, ?_⟩
  · simp [buildDesignerInput, hedit']
  · simp [buildDesignerInput, hedit']
  · simp [buildDesignerInput, hedit']
  · simp [buildDesignerInput, hedit']
  · rw [hnode]
  · refine ⟨_, by rw [hnode], ?_, ?_⟩
    · simp [StrMap.insert]
    · simp [StrMap.insert]
  · rw [hnode]

/-- C9 witness: a concrete edit re-entry with a cache file present — the
cache is skipped, the decision is cleared and the reviewer is reset to
pending. -/
theorem designer_edit_revision_witness :
    outfit_designer_node designerStateEdit (some 7) designerOkOp
      = outfit_designer_node designerStateEdit none designerOkOp
    ∧ (buildDesignerInput designerStateEdit 5).revision_mode = true
    ∧ (buildDesignerInput designerStateEdit 5).edit_instructions = some "make it red"
    ∧ (outfit_designer_node designerStateEdit (some 7) designerOkOp).outfit_review_decision
        = some ReviewDecisionDict.empty
    ∧ (∃ m, (outfit_designer_node designerStateEdit (some 7) designerOkOp).execution_status
        = some m ∧ m "outfit_reviewer" = some "pending") := by
  obtain ⟨h1, h2, h3, -, -, h6, ⟨m, hm1, hm2, -⟩, -⟩ :=
    designer_edit_revision designerStateEdit (some 7) designerOkOp 5 99 rfl rfl rfl
  exact ⟨h1, h2, h3, h6, ⟨m, hm1, hm2⟩⟩
